import Mathlib

/- Verification of the lab delay prediction app: a form collector, a
   predictor invocation loading a serialized model, and a three-tier risk
   classifier. All numeric values are modelled as rationals. -/

/-- A Python scalar as it appears in the single-row feature dataframe. -/
inductive PyValue where
  | num (q : ℚ)
  | str (s : String)
deriving DecidableEq

/-- Errors that can be raised while loading the model or predicting. -/
inductive PyError where
  | fileNotFound
  | exc (msg : String)
deriving DecidableEq

/-- The deserialized model: maps the feature record to a predicted delay,
or raises. -/
def Model : Type := List (String × PyValue) → Except PyError ℚ

/-- Range and starting value of a numeric slider widget. -/
structure SliderSpec where
  lo : ℚ
  hi : ℚ
  start : ℚ
deriving DecidableEq

/-- Lab Occupancy slider: 0 to 100, starting at 70. -/
def lab_occupancy_slider : SliderSpec := ⟨0, 100, 70⟩

/-- Scientist Workload slider: 1 to 20, starting at 5. -/
def scientist_workload_slider : SliderSpec := ⟨1, 20, 5⟩

/-- Time of Day slider: 0 to 23, starting at 10. -/
def hour_of_day_slider : SliderSpec := ⟨0, 23, 10⟩

/-- Days Since Installation slider: 0 to 730, starting at 100. -/
def days_since_start_slider : SliderSpec := ⟨0, 730, 100⟩

/-- Mean Ambient Temp slider: 18.0 to 30.0, starting at 22.0. -/
def mean_ambient_temp_slider : SliderSpec := ⟨18, 30, 22⟩

/-- Options of the Experiment Type selectbox. -/
def experiment_type_options : List String :=
  ["Validation", "QC", "Pilot", "Screening", "R&D"]

/-- Options of the Instrument Type selectbox. -/
def instrument_type_options : List String :=
  ["Microscope", "Centrifuge", "Spectrometer", "HPLC", "Incubator", "PCR"]

/-- Options of the Scientist Experience selectbox. -/
def scientist_experience_options : List String :=
  ["Junior", "Mid", "Senior"]

/-- Options of the Priority Level selectbox. -/
def priority_level_options : List String :=
  ["Low", "Medium", "High", "Critical"]

/-- The duration lookup table keyed by experiment type. -/
def duration_map : List (String × ℚ) :=
  [("Validation", 60), ("QC", 45), ("Pilot", 90), ("Screening", 30), ("R&D", 120)]

/-- Default duration: table lookup with fallback 60. -/
def default_duration (experiment_type : String) : ℚ :=
  (duration_map.lookup experiment_type).getD 60

/-- Value held by the Expected Duration number field: the user-supplied
value when one is given, otherwise the defaulted lookup value. -/
def expected_duration_value (user : Option ℚ) (experiment_type : String) : ℚ :=
  user.getD (default_duration experiment_type)

/-- The current widget values of one rendering pass. -/
structure Inputs where
  lab_occupancy : ℚ
  scientist_workload : ℚ
  hour_of_day : ℚ
  days_since_start : ℚ
  reagent_batch_id : String
  experiment_type : String
  instrument_type : String
  scientist_experience : String
  priority_level : String
  mean_ambient_temp : ℚ
  expected_duration : ℚ
deriving DecidableEq

/-- The single-row dataframe handed to the model, as the ordered list of
column name and value pairs built from the widget values. -/
def input_data (i : Inputs) : List (String × PyValue) :=
  [("scientist_workload", PyValue.num i.scientist_workload),
   ("lab_occupancy_level", PyValue.num i.lab_occupancy),
   ("expected_duration", PyValue.num i.expected_duration),
   ("ambient_temp", PyValue.num i.mean_ambient_temp),
   ("days_since_start", PyValue.num i.days_since_start),
   ("hour_of_day", PyValue.num i.hour_of_day),
   ("stress_index", PyValue.num (i.scientist_workload * i.lab_occupancy)),
   ("experiment_type", PyValue.str i.experiment_type),
   ("instrument_type", PyValue.str i.instrument_type),
   ("scientist_experience_level", PyValue.str i.scientist_experience),
   ("reagent_batch_id", PyValue.str i.reagent_batch_id)]

/-- The column names of the dataframe handed to the model. -/
def model_record_fields : List String :=
  ["scientist_workload", "lab_occupancy_level", "expected_duration",
   "ambient_temp", "days_since_start", "hour_of_day", "stress_index",
   "experiment_type", "instrument_type", "scientist_experience_level",
   "reagent_batch_id"]

/-- The names of the raw scalars the form collects, in source order. -/
def ui_field_names : List String :=
  ["lab_occupancy", "scientist_workload", "hour_of_day", "days_since_start",
   "reagent_batch_id", "experiment_type", "instrument_type",
   "scientist_experience", "priority_level", "mean_ambient_temp",
   "expected_duration"]

/-- Color, label and advice chosen by the risk logic. -/
structure RiskAssessment where
  risk_color : String
  risk_label : String
  advice : String
deriving DecidableEq

/-- The risk logic: three tiers by fixed thresholds on the prediction. -/
def risk_logic (prediction : ℚ) : RiskAssessment :=
  if prediction < 15 then
    ⟨"green", "LOW RISK", "Process is standard. No intervention needed."⟩
  else if 15 ≤ prediction ∧ prediction < 45 then
    ⟨"orange", "MODERATE RISK", "Monitor closely. Potential minor delays expected."⟩
  else
    ⟨"red", "HIGH RISK (BOTTLENECK)", "CRITICAL: Reschedule or allocate backup resources immediately."⟩

/-- Floor of a rational, computed from its numerator and denominator. -/
def ratFloor (q : ℚ) : ℤ := q.num.fdiv q.den

/-- Round a rational to the nearest integer, ties to even, as the Python
fixed-point formatter does. -/
def roundHalfEven (q : ℚ) : ℤ :=
  let f := ratFloor q
  let r := q - f
  if r < 1 / 2 then f
  else if 1 / 2 < r then f + 1
  else if f % 2 = 0 then f else f + 1

/-- Render a rational with one digit after the decimal point, as the
format spec .1f does. -/
def fmtFixed1 (q : ℚ) : String :=
  let n := roundHalfEven (q * 10)
  if n < 0 then "-" ++ toString ((-n) / 10) ++ "." ++ toString ((-n) % 10)
  else toString (n / 10) ++ "." ++ toString (n % 10)

/-- The rendered prediction result block. -/
structure Display where
  risk_label : String
  delay_text : String
  advice : String
  risk_color : String
deriving DecidableEq

/-- Build the rendered result block from the prediction. -/
def render_result (prediction : ℚ) : Display :=
  ⟨(risk_logic prediction).risk_label,
   "Expected Delay: " ++ fmtFixed1 prediction ++ " minutes",
   (risk_logic prediction).advice,
   (risk_logic prediction).risk_color⟩

/-- What the click handler leaves on screen: a result block or an error
message. -/
inductive Outcome where
  | success (d : Display)
  | error_message (msg : String)
deriving DecidableEq

/-- The body of the try block: load the model, predict, render. -/
def try_body (load_result : Except PyError Model)
    (record : List (String × PyValue)) : Except PyError Display := do
  let model ← load_result
  let prediction ← model record
  pure (render_result prediction)

/-- The Predict Delay Risk click handler: the try body with its two
except clauses. -/
def on_predict_click (load_result : Except PyError Model)
    (record : List (String × PyValue)) : Outcome :=
  match try_body load_result record with
  | Except.ok d => Outcome.success d
  | Except.error PyError.fileNotFound =>
      Outcome.error_message "Error: Model file \x27lab_delay_model_v2.pkl\x27 not found. Please train the model first."
  | Except.error (PyError.exc m) =>
      Outcome.error_message ("Prediction Error: " ++ m)

/-- The world outside one invocation: the model artifact on disk. -/
structure ExternalState where
  disk_model : Except PyError Model

/-- One prediction invocation: reads the artifact from the current disk
state and returns the outcome together with the unchanged state. -/
def invocation (s : ExternalState) (record : List (String × PyValue)) :
    Outcome × ExternalState :=
  (on_predict_click s.disk_model record, s)

/-- A sequence of invocations, each against the disk state current at that
invocation. -/
def session_results (states : List ExternalState)
    (record : List (String × PyValue)) : List Outcome :=
  states.map (fun s => (invocation s record).1)

/-- The widget values of one rendering pass where every widget is left at
its starting value. -/
def default_inputs : Inputs :=
  ⟨70, 5, 10, 100, "BATCH_001", "Validation", "Microscope", "Junior", "Low",
   22, 60⟩

/-- Floor of an integer cast to the rationals is the integer itself. -/
theorem ratFloor_intCast (m : ℤ) : ratFloor (m : ℚ) = m := by
  simp [ratFloor, Int.fdiv_one]

/-- Rounding an integer cast to the rationals returns the integer. -/
theorem roundHalfEven_intCast (m : ℤ) : roundHalfEven (m : ℚ) = m := by
  simp [roundHalfEven, ratFloor_intCast]

/-- The value 10 renders as the string 10.0. -/
theorem fmtFixed1_ten : fmtFixed1 10 = "10.0" := by
  have h : (10 : ℚ) * 10 = ((100 : ℤ) : ℚ) := by norm_num
  simp only [fmtFixed1, h, roundHalfEven_intCast]
  decide

/-- The value 45 renders as the string 45.0. -/
theorem fmtFixed1_forty_five : fmtFixed1 45 = "45.0" := by
  have h : (45 : ℚ) * 10 = ((450 : ℤ) : ℚ) := by norm_num
  simp only [fmtFixed1, h, roundHalfEven_intCast]
  decide

/-- Rendered block for a prediction of 10. -/
theorem render_result_ten :
    render_result 10 =
      ⟨"LOW RISK", "Expected Delay: 10.0 minutes",
       "Process is standard. No intervention needed.", "green"⟩ := by
  simp only [render_result]
  rw [fmtFixed1_ten]
  decide

/-- Rendered block for a prediction of 45. -/
theorem render_result_forty_five :
    render_result 45 =
      ⟨"HIGH RISK (BOTTLENECK)", "Expected Delay: 45.0 minutes",
       "CRITICAL: Reschedule or allocate backup resources immediately.", "red"⟩ := by
  simp only [render_result]
  rw [fmtFixed1_forty_five]
  decide

/-- Claim C1: the risk logic maps every predicted delay to exactly one tier
by fixed thresholds: below 15 is LOW RISK, from 15 up to but excluding 45 is
MODERATE RISK, and 45 or more is HIGH RISK (BOTTLENECK); the boundary values
15 and 45 classify as their upper tier. -/
theorem risk_tier_thresholds :
    (∀ d : ℚ, d < 15 → (risk_logic d).risk_label = "LOW RISK") ∧
    (∀ d : ℚ, 15 ≤ d → d < 45 → (risk_logic d).risk_label = "MODERATE RISK") ∧
    (∀ d : ℚ, 45 ≤ d → (risk_logic d).risk_label = "HIGH RISK (BOTTLENECK)") ∧
    (risk_logic 15).risk_label = "MODERATE RISK" ∧
    (risk_logic 45).risk_label = "HIGH RISK (BOTTLENECK)" := by
  refine ⟨fun d h => ?_, fun d h1 h2 => ?_, fun d h => ?_, by decide, by decide⟩
  · simp [risk_logic, h]
  · have hn : ¬ d < 15 := not_lt.mpr h1
    simp [risk_logic, hn, h1, h2]
  · have hn1 : ¬ d < 15 := by linarith
    have hn2 : ¬ (15 ≤ d ∧ d < 45) := by
      rintro ⟨h3, h4⟩
      linarith
    simp [risk_logic, hn1, hn2]

/-- Concrete instances of the three threshold cases at 7, 20 and 50. -/
theorem risk_tier_thresholds_witness :
    ((7 : ℚ) < 15 ∧ (risk_logic 7).risk_label = "LOW RISK") ∧
    ((15 : ℚ) ≤ 20 ∧ (20 : ℚ) < 45 ∧ (risk_logic 20).risk_label = "MODERATE RISK") ∧
    ((45 : ℚ) ≤ 50 ∧ (risk_logic 50).risk_label = "HIGH RISK (BOTTLENECK)") :=
  ⟨⟨by norm_num, risk_tier_thresholds.1 7 (by norm_num)⟩,
   ⟨by norm_num, by norm_num,
    risk_tier_thresholds.2.1 20 (by norm_num) (by norm_num)⟩,
   ⟨by norm_num, risk_tier_thresholds.2.2.1 50 (by norm_num)⟩⟩

/-- Claim C2: for every prediction the feature record handed to the model
consists of exactly and only the eleven named fields, in order, and the
derived field stress_index equals scientist_workload times lab_occupancy. -/
theorem feature_record_schema :
    ∀ i : Inputs,
      (input_data i).map Prod.fst =
        ["scientist_workload", "lab_occupancy_level", "expected_duration",
         "ambient_temp", "days_since_start", "hour_of_day", "stress_index",
         "experiment_type", "instrument_type", "scientist_experience_level",
         "reagent_batch_id"] ∧
      (input_data i).lookup "stress_index" =
        some (PyValue.num (i.scientist_workload * i.lab_occupancy)) :=
  fun i => ⟨rfl, rfl⟩

/-- Claim C3: the model-facing schema and the form-facing field set are two
incompatible variants: the former has hour_of_day, stress_index and
ambient_temp, the latter has mean_ambient_temp and no derived fields, and
the two field lists are not equal. -/
theorem schema_variants_incompatible :
    "hour_of_day" ∈ model_record_fields ∧
    "stress_index" ∈ model_record_fields ∧
    "ambient_temp" ∈ model_record_fields ∧
    "mean_ambient_temp" ∈ ui_field_names ∧
    "stress_index" ∉ ui_field_names ∧
    "ambient_temp" ∉ ui_field_names ∧
    model_record_fields ≠ ui_field_names ∧
    ∀ i : Inputs, (input_data i).map Prod.fst ≠ ui_field_names := by
  refine ⟨by decide, by decide, by decide, by decide, by decide, by decide,
    by decide, fun i h => ?_⟩
  have h2 : (input_data i).map Prod.fst = model_record_fields := rfl
  rw [h2] at h
  exact absurd h (by decide)

/-- Claim C4: a missing model artifact yields the model-not-found message,
any other load or prediction failure is surfaced with its underlying
message, and every invocation of the click handler returns an outcome, a
result block or an error message, so no exception propagates. -/
theorem prediction_error_handling :
    (∀ record : List (String × PyValue),
       on_predict_click (Except.error PyError.fileNotFound) record =
         Outcome.error_message "Error: Model file \x27lab_delay_model_v2.pkl\x27 not found. Please train the model first.") ∧
    (∀ (load_result : Except PyError Model) (record : List (String × PyValue))
       (msg : String),
       try_body load_result record = Except.error (PyError.exc msg) →
       on_predict_click load_result record =
         Outcome.error_message ("Prediction Error: " ++ msg)) ∧
    (∀ (load_result : Except PyError Model) (record : List (String × PyValue)),
       (∃ d, on_predict_click load_result record = Outcome.success d) ∨
       (∃ msg, on_predict_click load_result record = Outcome.error_message msg)) := by
  refine ⟨fun record => rfl, fun l r m h => ?_, fun l r => ?_⟩
  · simp [on_predict_click, h]
  · cases h : try_body l r with
    | ok d => exact Or.inl ⟨d, by simp [on_predict_click, h]⟩
    | error e =>
        cases e with
        | fileNotFound =>
            exact Or.inr
              ⟨"Error: Model file \x27lab_delay_model_v2.pkl\x27 not found. Please train the model first.",
               by simp [on_predict_click, h]⟩
        | exc m =>
            exact Or.inr ⟨"Prediction Error: " ++ m, by simp [on_predict_click, h]⟩

/-- A concrete failing load whose message is surfaced by the handler. -/
theorem prediction_error_handling_witness :
    try_body (Except.error (PyError.exc "boom")) [] =
      Except.error (PyError.exc "boom") ∧
    on_predict_click (Except.error (PyError.exc "boom")) [] =
      Outcome.error_message ("Prediction Error: " ++ "boom") :=
  ⟨rfl,
   prediction_error_handling.2.1 (Except.error (PyError.exc "boom")) [] "boom" rfl⟩

/-- Claim C5: with the example inputs and a model returning 10.0 the
rendered result is LOW RISK with the text Expected Delay: 10.0 minutes;
with the same inputs and a returned value of 45.0 the rendered result is
HIGH RISK (BOTTLENECK). -/
theorem example_predictions :
    on_predict_click (Except.ok (fun _ => Except.ok 10))
        (input_data ⟨70, 5, 10, 100, "BATCH_001", "Validation", "Microscope",
          "Junior", "Low", 22, 60⟩) =
      Outcome.success
        ⟨"LOW RISK", "Expected Delay: 10.0 minutes",
         "Process is standard. No intervention needed.", "green"⟩ ∧
    on_predict_click (Except.ok (fun _ => Except.ok 45))
        (input_data ⟨70, 5, 10, 100, "BATCH_001", "Validation", "Microscope",
          "Junior", "Low", 22, 60⟩) =
      Outcome.success
        ⟨"HIGH RISK (BOTTLENECK)", "Expected Delay: 45.0 minutes",
         "CRITICAL: Reschedule or allocate backup resources immediately.", "red"⟩ := by
  constructor
  · have h : on_predict_click (Except.ok (fun _ => Except.ok 10))
        (input_data ⟨70, 5, 10, 100, "BATCH_001", "Validation", "Microscope",
          "Junior", "Low", 22, 60⟩) = Outcome.success (render_result 10) := rfl
    rw [h, render_result_ten]
  · have h : on_predict_click (Except.ok (fun _ => Except.ok 45))
        (input_data ⟨70, 5, 10, 100, "BATCH_001", "Validation", "Microscope",
          "Junior", "Low", 22, 60⟩) = Outcome.success (render_result 45) := rfl
    rw [h, render_result_forty_five]

/-- Claim C6: every numeric input exposes exactly the stated bounds and
defaults and every categorical input offers exactly its closed enumeration
of options. -/
theorem widget_bounds_defaults :
    lab_occupancy_slider.lo = 0 ∧ lab_occupancy_slider.hi = 100 ∧
    lab_occupancy_slider.start = 70 ∧
    scientist_workload_slider.lo = 1 ∧ scientist_workload_slider.hi = 20 ∧
    scientist_workload_slider.start = 5 ∧
    days_since_start_slider.lo = 0 ∧ days_since_start_slider.hi = 730 ∧
    days_since_start_slider.start = 100 ∧
    mean_ambient_temp_slider.lo = 18 ∧ mean_ambient_temp_slider.hi = 30 ∧
    mean_ambient_temp_slider.start = 22 ∧
    experiment_type_options = ["Validation", "QC", "Pilot", "Screening", "R&D"] ∧
    instrument_type_options =
      ["Microscope", "Centrifuge", "Spectrometer", "HPLC", "Incubator", "PCR"] ∧
    scientist_experience_options = ["Junior", "Mid", "Senior"] ∧
    priority_level_options = ["Low", "Medium", "High", "Critical"] := by
  decide

/-- Claim C7: the default expected duration is derived from the experiment
type by the fixed lookup, the user-supplied value overrides the default,
and the expected_duration field of the record holds the resulting value. -/
theorem duration_default_lookup :
    default_duration "Validation" = 60 ∧
    default_duration "QC" = 45 ∧
    default_duration "Pilot" = 90 ∧
    default_duration "Screening" = 30 ∧
    default_duration "R&D" = 120 ∧
    (∀ (t : String) (v : ℚ), expected_duration_value (some v) t = v) ∧
    (∀ t : String, expected_duration_value none t = default_duration t) ∧
    (∀ i : Inputs, (input_data i).lookup "expected_duration" =
       some (PyValue.num i.expected_duration)) :=
  ⟨rfl, rfl, rfl, rfl, rfl, fun t v => rfl, fun t => rfl, fun i => rfl⟩

/-- Claim C8: the priority level is collected but unused: two runs whose
inputs differ only in priority_level build the same feature record and
produce the same outcome for every load result. -/
theorem priority_level_noninterference :
    ∀ (i : Inputs) (p q : String) (load_result : Except PyError Model),
      input_data { i with priority_level := p } =
        input_data { i with priority_level := q } ∧
      on_predict_click load_result (input_data { i with priority_level := p }) =
        on_predict_click load_result (input_data { i with priority_level := q }) :=
  fun i p q load_result => ⟨rfl, rfl⟩

/-- Claim C9: an invocation leaves the external state unchanged, and in a
sequence of invocations each outcome is a function of the disk state
current at that invocation alone, so no loaded model is cached across
invocations. -/
theorem prediction_frame_no_caching :
    (∀ (s : ExternalState) (record : List (String × PyValue)),
       (invocation s record).2 = s) ∧
    (∀ (states : List ExternalState) (record : List (String × PyValue)),
       session_results states record =
         states.map (fun s => on_predict_click s.disk_model record)) :=
  ⟨fun s record => rfl, fun states record => rfl⟩

/-- Claim C10: the risk logic is total and exhaustive over all rational
predictions, each prediction falls in exactly one of the three tiers, and
every prediction strictly below 15, including negative values, yields the
LOW RISK assessment with the standard-process advice. -/
theorem risk_classification_total :
    (∀ d : ℚ,
       (d < 15 ∧ risk_logic d =
         ⟨"green", "LOW RISK", "Process is standard. No intervention needed."⟩) ∨
       (15 ≤ d ∧ d < 45 ∧ risk_logic d =
         ⟨"orange", "MODERATE RISK", "Monitor closely. Potential minor delays expected."⟩) ∨
       (45 ≤ d ∧ risk_logic d =
         ⟨"red", "HIGH RISK (BOTTLENECK)", "CRITICAL: Reschedule or allocate backup resources immediately."⟩)) ∧
    (∀ d : ℚ, d < 15 →
       risk_logic d =
         ⟨"green", "LOW RISK", "Process is standard. No intervention needed."⟩) := by
  constructor
  · intro d
    by_cases h1 : d < 15
    · exact Or.inl ⟨h1, by simp [risk_logic, h1]⟩
    · by_cases h2 : d < 45
      · refine Or.inr (Or.inl ⟨not_lt.mp h1, h2, ?_⟩)
        simp [risk_logic, h1, not_lt.mp h1, h2]
      · refine Or.inr (Or.inr ⟨not_lt.mp h2, ?_⟩)
        have hn2 : ¬ (15 ≤ d ∧ d < 45) := fun hc => h2 hc.2
        simp [risk_logic, h1, hn2]
  · intro d h
    simp [risk_logic, h]

/-- A negative prediction classifies as LOW RISK. -/
theorem risk_classification_total_witness :
    (-5 : ℚ) < 15 ∧
    risk_logic (-5) =
      ⟨"green", "LOW RISK", "Process is standard. No intervention needed."⟩ :=
  ⟨by norm_num, risk_classification_total.2 (-5) (by norm_num)⟩
